import Mathlib

/-!
Shallow embedding of the film-database backend (`src/app.py`).

The database is modelled as lists of rows (one list per table), SQL values as
`Option String` (NULL = `none`), and timestamps (`NOW()`) as an explicit `Nat`
parameter.  Python truthiness of a JSON string field (`if d.get(k)`) is
`truthy`: present and non-empty.  The Create / Update / Delete endpoints of
`app.py` are embedded as pure state transformers returning the new database
state together with the HTTP status code; the transactional failure behaviour
of Create is additionally embedded via an explicit statement list and a
failure oracle (`runFrom`), mirroring psycopg2's begin / commit / rollback.
-/

namespace FilmDB

/-- Python truthiness of an optional JSON string: `None` and `""` are falsy. -/
def truthy : Option String → Bool
  | none => false
  | some s => !(s == "")

/-- A row of the `films` table. -/
structure FilmRow where
  film_id : Nat
  title : Option String
  release_year : Option String
  runtime : Option String
  synopsis : Option String
  av_annotate_link : Option String
  created_at : Nat
  updated_at : Option Nat
  deleted_at : Option Nat
  deriving Repr, DecidableEq

/-- A row of `film_production_details`. -/
structure ProdRow where
  film_id : Nat
  production_timeframe : Option String
  shooting_city : Option String
  shooting_country : Option String
  post_production_studio : Option String
  production_comments : Option String
  deleted_at : Option Nat
  deriving Repr, DecidableEq

/-- A row of `film_authors`. -/
structure AuthorRow where
  film_id : Nat
  role : String
  name : String
  comment : String
  deleted_at : Option Nat
  deriving Repr, DecidableEq

/-- A row of `film_production_team`. -/
structure TeamRow where
  film_id : Nat
  department : Option String
  name : Option String
  role : Option String
  comment : Option String
  deleted_at : Option Nat
  deriving Repr, DecidableEq

/-- A row of `film_actors`. -/
structure ActorRow where
  film_id : Nat
  actor_name : String
  character_name : Option String
  comment : Option String
  deleted_at : Option Nat
  deriving Repr, DecidableEq

/-- A row of `film_equipment`. -/
structure EquipRow where
  film_id : Nat
  equipment_name : Option String
  description : Option String
  comment : Option String
  deleted_at : Option Nat
  deriving Repr, DecidableEq

/-- A row of `film_documents`. -/
structure DocRow where
  film_id : Nat
  document_type : Option String
  file_url : Option String
  comment : Option String
  deleted_at : Option Nat
  deriving Repr, DecidableEq

/-- A row of `film_institutional_info`. -/
structure InstRow where
  film_id : Nat
  production_company : Option String
  funding_company : Option String
  funding_comment : Option String
  source : Option String
  institutional_city : Option String
  institutional_country : Option String
  deleted_at : Option Nat
  deriving Repr, DecidableEq

/-- A row of `film_screenings`. -/
structure ScreeningRow where
  film_id : Nat
  screening_date : Option String
  screening_city : Option String
  screening_country : Option String
  organizers : Option String
  format : Option String
  audience : Option String
  film_rights : Option String
  comment : Option String
  source : Option String
  deleted_at : Option Nat
  deriving Repr, DecidableEq

/-- The database state: one list per table of the film aggregate, plus the
serial counter providing the next `film_id`. -/
structure DB where
  films : List FilmRow
  production_details : List ProdRow
  authors : List AuthorRow
  production_team : List TeamRow
  actors : List ActorRow
  equipment : List EquipRow
  documents : List DocRow
  institutional_info : List InstRow
  screenings : List ScreeningRow
  next_film_id : Nat
  deriving Repr, DecidableEq

/-- The `productionDetails` section of the request document. -/
structure ProdSection where
  production_timeframe : Option String
  shooting_city : Option String
  shooting_country : Option String
  post_production_studio : Option String
  production_comments : Option String
  deriving Repr, DecidableEq

/-- The `authors` section of the request document. -/
structure AuthorsSection where
  screenwriter : Option String
  screenwriter_comment : Option String
  filmmaker : Option String
  filmmaker_comment : Option String
  executive_producer : Option String
  executive_producer_comment : Option String
  deriving Repr, DecidableEq

/-- One entry of the `productionTeam` array of the request document. -/
structure TeamMember where
  department : Option String
  name : Option String
  role : Option String
  comment : Option String
  deriving Repr, DecidableEq

/-- The `equipment` section of the request document. -/
structure EquipmentSection where
  equipment_name : Option String
  description : Option String
  comment : Option String
  deriving Repr, DecidableEq

/-- The `documents` section of the request document. -/
structure DocumentsSection where
  document_type : Option String
  file_url : Option String
  comment : Option String
  deriving Repr, DecidableEq

/-- The `institutionalInfo` section of the request document. -/
structure InstSection where
  production_company : Option String
  funding_company : Option String
  funding_comment : Option String
  source : Option String
  institutional_city : Option String
  institutional_country : Option String
  deriving Repr, DecidableEq

/-- One entry of the `screenings` array of the request document. -/
structure ScreeningItem where
  screening_date : Option String
  screening_city : Option String
  screening_country : Option String
  organizers : Option String
  format : Option String
  audience : Option String
  film_rights : Option String
  comment : Option String
  source : Option String
  deriving Repr, DecidableEq

/-- The JSON request document of POST /films and PUT /films/{id}
(`film_data` in `app.py`); an absent section is the all-`none` record,
matching `film_data.get(key, {})` / `film_data.get(key, [])`. -/
structure FilmDoc where
  title : Option String
  release_year : Option String
  runtime : Option String
  synopsis : Option String
  av_annotate_link : Option String
  productionDetails : ProdSection
  authors : AuthorsSection
  productionTeam : List TeamMember
  actors : Option String
  equipment : EquipmentSection
  documents : DocumentsSection
  institutionalInfo : InstSection
  screenings : List ScreeningItem
  deriving Repr, DecidableEq

/-- The `films` row inserted by Create (`INSERT INTO films ... RETURNING
film_id`); `created_at` defaults to the transaction time. -/
def rootRow (doc : FilmDoc) (fid t : Nat) : FilmRow :=
  { film_id := fid
  , title := doc.title
  , release_year := doc.release_year
  , runtime := doc.runtime
  , synopsis := doc.synopsis
  , av_annotate_link := doc.av_annotate_link
  , created_at := t
  , updated_at := none
  , deleted_at := none }

/-- The unconditional `film_production_details` insert of Create/Update. -/
def prodRow (p : ProdSection) (fid : Nat) : ProdRow :=
  { film_id := fid
  , production_timeframe := p.production_timeframe
  , shooting_city := p.shooting_city
  , shooting_country := p.shooting_country
  , post_production_studio := p.post_production_studio
  , production_comments := p.production_comments
  , deleted_at := none }

/-- The `film_authors` rows inserted by Create/Update: one row per truthy
role key out of screenwriter / filmmaker / executive_producer, with the
comment defaulting to `""`. -/
def authorRows (a : AuthorsSection) (fid : Nat) : List AuthorRow :=
  (if truthy a.screenwriter then
    [{ film_id := fid, role := "Screenwriter", name := a.screenwriter.getD ""
     , comment := a.screenwriter_comment.getD "", deleted_at := none }] else [])
  ++ (if truthy a.filmmaker then
    [{ film_id := fid, role := "Filmmaker", name := a.filmmaker.getD ""
     , comment := a.filmmaker_comment.getD "", deleted_at := none }] else [])
  ++ (if truthy a.executive_producer then
    [{ film_id := fid, role := "Executive Producer", name := a.executive_producer.getD ""
     , comment := a.executive_producer_comment.getD "", deleted_at := none }] else [])

/-- One `film_production_team` row per entry of the productionTeam array. -/
def teamRow (m : TeamMember) (fid : Nat) : TeamRow :=
  { film_id := fid, department := m.department, name := m.name
  , role := m.role, comment := m.comment, deleted_at := none }

/-- All `film_production_team` rows inserted by Create/Update. -/
def teamRows (ms : List TeamMember) (fid : Nat) : List TeamRow :=
  ms.map (fun m => teamRow m fid)

/-- Python's `s.split(',')` on the character list: the comma-separated
pieces, in order; the empty string splits to one empty piece. -/
def splitOnCommaGo : List Char → List Char → List (List Char)
  | [], acc => [acc.reverse]
  | c :: rest, acc =>
    if c == ',' then acc.reverse :: splitOnCommaGo rest []
    else splitOnCommaGo rest (c :: acc)

/-- Python's `s.split(',')`. -/
def splitOnComma (cs : List Char) : List (List Char) := splitOnCommaGo cs []

/-- Python's `s.strip()`: drop whitespace from both ends. -/
def trimChars (cs : List Char) : List Char :=
  ((cs.dropWhile Char.isWhitespace).reverse.dropWhile Char.isWhitespace).reverse

/-- The actor-name parser of Create/Update: split the comma-delimited string,
strip each token, drop tokens that are empty after stripping
(`for name in s.split(','): nm = name.strip(); if nm: ...`). -/
def parseActors (s : String) : List String :=
  ((splitOnComma s.data).map (fun cs => String.mk (trimChars cs))).filter
    (fun nm => !(nm == ""))

/-- The `film_actors` row for one parsed actor name: character_name and
comment are inserted as NULL. -/
def actorRow (fid : Nat) (nm : String) : ActorRow :=
  { film_id := fid, actor_name := nm, character_name := none
  , comment := none, deleted_at := none }

/-- All `film_actors` rows inserted by Create/Update; an absent or null
`actors` field behaves as `""` (`film_data.get('actors', '') or ''`). -/
def actorRows (fid : Nat) (field : Option String) : List ActorRow :=
  (parseActors (field.getD "")).map (actorRow fid)

/-- The `film_equipment` rows of Create/Update: one row when equipment_name
is truthy, none otherwise. -/
def equipRows (e : EquipmentSection) (fid : Nat) : List EquipRow :=
  if truthy e.equipment_name then
    [{ film_id := fid, equipment_name := e.equipment_name
     , description := e.description, comment := e.comment, deleted_at := none }]
  else []

/-- The `film_documents` rows of Create/Update: one row when document_type
is truthy, none otherwise. -/
def docRows (d : DocumentsSection) (fid : Nat) : List DocRow :=
  if truthy d.document_type then
    [{ film_id := fid, document_type := d.document_type
     , file_url := d.file_url, comment := d.comment, deleted_at := none }]
  else []

/-- The unconditional `film_institutional_info` insert of Create/Update. -/
def instRow (i : InstSection) (fid : Nat) : InstRow :=
  { film_id := fid
  , production_company := i.production_company
  , funding_company := i.funding_company
  , funding_comment := i.funding_comment
  , source := i.source
  , institutional_city := i.institutional_city
  , institutional_country := i.institutional_country
  , deleted_at := none }

/-- The `film_screenings` rows of Create/Update: one row per entry whose
screening_date is truthy. -/
def screeningRows (ss : List ScreeningItem) (fid : Nat) : List ScreeningRow :=
  (ss.filter (fun s => truthy s.screening_date)).map (fun s =>
    { film_id := fid
    , screening_date := s.screening_date
    , screening_city := s.screening_city
    , screening_country := s.screening_country
    , organizers := s.organizers
    , format := s.format
    , audience := s.audience
    , film_rights := s.film_rights
    , comment := s.comment
    , source := s.source
    , deleted_at := none })

/-- The success path of POST /films (`create_film`): the ordered sequence of
inserts of one committed transaction, applied to the database state. -/
def createApply (doc : FilmDoc) (t : Nat) (s : DB) : DB :=
  let fid := s.next_film_id
  { films := s.films ++ [rootRow doc fid t]
  , production_details := s.production_details ++ [prodRow doc.productionDetails fid]
  , authors := s.authors ++ authorRows doc.authors fid
  , production_team := s.production_team ++ teamRows doc.productionTeam fid
  , actors := s.actors ++ actorRows fid doc.actors
  , equipment := s.equipment ++ equipRows doc.equipment fid
  , documents := s.documents ++ docRows doc.documents fid
  , institutional_info := s.institutional_info ++ [instRow doc.institutionalInfo fid]
  , screenings := s.screenings ++ screeningRows doc.screenings fid
  , next_film_id := fid + 1 }

/-! ### The transactional view of Create

`create_film` runs its inserts between `BEGIN` and `COMMIT`; on any exception
`conn.rollback()` restores the pre-call state and the handler answers 500.
Each SQL statement is one `DB → DB` step; a failure oracle says which
statement of the transaction raises. -/

/-- Single-row insert into `film_production_details`. -/
def insertProd (r : ProdRow) (s : DB) : DB :=
  { s with production_details := s.production_details ++ [r] }

/-- Single-row insert into `film_authors`. -/
def insertAuthor (r : AuthorRow) (s : DB) : DB :=
  { s with authors := s.authors ++ [r] }

/-- Single-row insert into `film_production_team`. -/
def insertTeam (r : TeamRow) (s : DB) : DB :=
  { s with production_team := s.production_team ++ [r] }

/-- Single-row insert into `film_actors`. -/
def insertActor (r : ActorRow) (s : DB) : DB :=
  { s with actors := s.actors ++ [r] }

/-- Single-row insert into `film_equipment`. -/
def insertEquip (r : EquipRow) (s : DB) : DB :=
  { s with equipment := s.equipment ++ [r] }

/-- Single-row insert into `film_documents`. -/
def insertDoc (r : DocRow) (s : DB) : DB :=
  { s with documents := s.documents ++ [r] }

/-- Single-row insert into `film_institutional_info`. -/
def insertInst (r : InstRow) (s : DB) : DB :=
  { s with institutional_info := s.institutional_info ++ [r] }

/-- Single-row insert into `film_screenings`. -/
def insertScreening (r : ScreeningRow) (s : DB) : DB :=
  { s with screenings := s.screenings ++ [r] }

/-- The root `INSERT INTO films ... RETURNING film_id` of Create, statement 0
of the transaction; allocates the next serial id. -/
def insertRoot (doc : FilmDoc) (t : Nat) (s : DB) : DB :=
  { s with films := s.films ++ [rootRow doc s.next_film_id t],
           next_film_id := s.next_film_id + 1 }

/-- The child-table inserts of `create_film`, in source order, for the film id
returned by the root insert. -/
def createChildStmts (doc : FilmDoc) (fid : Nat) : List (DB → DB) :=
  [insertProd (prodRow doc.productionDetails fid)]
  ++ (authorRows doc.authors fid).map insertAuthor
  ++ (teamRows doc.productionTeam fid).map insertTeam
  ++ (actorRows fid doc.actors).map insertActor
  ++ (equipRows doc.equipment fid).map insertEquip
  ++ (docRows doc.documents fid).map insertDoc
  ++ [insertInst (instRow doc.institutionalInfo fid)]
  ++ (screeningRows doc.screenings fid).map insertScreening

/-- Run the statements of a transaction from index `k` on; `fails i = true`
means the `i`-th statement raises, aborting the transaction (`none`). -/
def runFrom (fails : Nat → Bool) : Nat → List (DB → DB) → DB → Option DB
  | _, [], s => some s
  | k, f :: fs, s => if fails k then none else runFrom fails (k + 1) fs (f s)

/-- POST /films (`create_film`) as one transaction under a failure oracle:
commit yields the new state and 201; any statement failure rolls back to the
pre-call state and yields 500. -/
def createTx (fails : Nat → Bool) (doc : FilmDoc) (t : Nat) (s : DB) : DB × Nat :=
  match runFrom fails 0 ((insertRoot doc t) :: createChildStmts doc s.next_film_id) s with
  | some s2 => (s2, 201)
  | none => (s, 500)

/-! ### Update, Delete and FullRead -/

/-- The root `UPDATE films SET ... updated_at=NOW() WHERE film_id=%s` applied
to one matching row (note: no `deleted_at IS NULL` condition in the source). -/
def setRoot (doc : FilmDoc) (t : Nat) (r : FilmRow) : FilmRow :=
  { r with title := doc.title,
           release_year := doc.release_year,
           runtime := doc.runtime,
           synopsis := doc.synopsis,
           av_annotate_link := doc.av_annotate_link,
           updated_at := some t }

/-- The replace step of Update for one child table:
`DELETE FROM tbl WHERE film_id=%s` (a hard delete of every row with that id,
live or not) followed by the re-inserts of `rows`. -/
def replaceBy {α : Type} (idOf : α → Nat) (fid : Nat) (rows xs : List α) : List α :=
  xs.filter (fun r => !(idOf r == fid)) ++ rows

/-- PUT /films/{id} (`update_film`), success path and root-mismatch path: the
root update matches every `films` row with `film_id = fid` (soft-deleted rows
included); `rowcount == 0` rolls back and answers 404, otherwise every child
set is deleted and re-inserted from the document and the transaction commits
with 200. -/
def updateFilm (fid : Nat) (doc : FilmDoc) (t : Nat) (s : DB) : DB × Nat :=
  if s.films.any (fun r => r.film_id == fid) then
    ({ films := s.films.map (fun r => if r.film_id == fid then setRoot doc t r else r)
     , production_details :=
         replaceBy (fun r => r.film_id) fid [prodRow doc.productionDetails fid] s.production_details
     , authors := replaceBy (fun r => r.film_id) fid (authorRows doc.authors fid) s.authors
     , production_team :=
         replaceBy (fun r => r.film_id) fid (teamRows doc.productionTeam fid) s.production_team
     , actors := replaceBy (fun r => r.film_id) fid (actorRows fid doc.actors) s.actors
     , equipment := replaceBy (fun r => r.film_id) fid (equipRows doc.equipment fid) s.equipment
     , documents := replaceBy (fun r => r.film_id) fid (docRows doc.documents fid) s.documents
     , institutional_info :=
         replaceBy (fun r => r.film_id) fid [instRow doc.institutionalInfo fid] s.institutional_info
     , screenings := replaceBy (fun r => r.film_id) fid (screeningRows doc.screenings fid) s.screenings
     , next_film_id := s.next_film_id }, 200)
  else (s, 404)

/-- DELETE /films/{id} (`delete_film`): soft-delete the root row only if it is
live (`WHERE film_id=%s AND deleted_at IS NULL`); zero rows affected rolls
back with 404; on success every row of the eight child tables with that
film_id (no liveness condition) gets `deleted_at = NOW()` and the transaction
commits with 200. -/
def deleteFilm (fid : Nat) (t : Nat) (s : DB) : DB × Nat :=
  if s.films.any (fun r => r.film_id == fid && r.deleted_at.isNone) then
    ({ films := s.films.map (fun r =>
         if r.film_id == fid && r.deleted_at.isNone then { r with deleted_at := some t } else r)
     , production_details := s.production_details.map (fun r =>
         if r.film_id == fid then { r with deleted_at := some t } else r)
     , authors := s.authors.map (fun r =>
         if r.film_id == fid then { r with deleted_at := some t } else r)
     , production_team := s.production_team.map (fun r =>
         if r.film_id == fid then { r with deleted_at := some t } else r)
     , actors := s.actors.map (fun r =>
         if r.film_id == fid then { r with deleted_at := some t } else r)
     , equipment := s.equipment.map (fun r =>
         if r.film_id == fid then { r with deleted_at := some t } else r)
     , documents := s.documents.map (fun r =>
         if r.film_id == fid then { r with deleted_at := some t } else r)
     , institutional_info := s.institutional_info.map (fun r =>
         if r.film_id == fid then { r with deleted_at := some t } else r)
     , screenings := s.screenings.map (fun r =>
         if r.film_id == fid then { r with deleted_at := some t } else r)
     , next_film_id := s.next_film_id }, 200)
  else (s, 404)

/-- The aggregate document answered by GET /films/{id}. -/
structure Aggregate where
  film : FilmRow
  productionDetails : Option ProdRow
  authors : List AuthorRow
  productionTeam : List TeamRow
  actors : List ActorRow
  equipment : List EquipRow
  documents : List DocRow
  institutionalInfo : Option InstRow
  screenings : List ScreeningRow
  deriving Repr, DecidableEq

/-- GET /films/{id} (`get_film_details`): fetch the live root row — absent
means 404 (`none`) — then every child set filtered to live rows of that
film_id; `fetchone` on the 0..1 tables, `fetchall` on the plural ones. -/
def getFilmDetails (fid : Nat) (s : DB) : Option Aggregate :=
  match s.films.find? (fun r => r.film_id == fid && r.deleted_at.isNone) with
  | none => none
  | some f => some
    { film := f
    , productionDetails :=
        s.production_details.find? (fun r => r.film_id == fid && r.deleted_at.isNone)
    , authors := s.authors.filter (fun r => r.film_id == fid && r.deleted_at.isNone)
    , productionTeam := s.production_team.filter (fun r => r.film_id == fid && r.deleted_at.isNone)
    , actors := s.actors.filter (fun r => r.film_id == fid && r.deleted_at.isNone)
    , equipment := s.equipment.filter (fun r => r.film_id == fid && r.deleted_at.isNone)
    , documents := s.documents.filter (fun r => r.film_id == fid && r.deleted_at.isNone)
    , institutionalInfo :=
        s.institutional_info.find? (fun r => r.film_id == fid && r.deleted_at.isNone)
    , screenings := s.screenings.filter (fun r => r.film_id == fid && r.deleted_at.isNone) }

/-! ### Users -/

/-- A row of the `users` table. -/
structure UserRow where
  user_id : Nat
  username : String
  password_hash : String
  role : String
  deleted_at : Option Nat
  deriving Repr, DecidableEq

/-- The `users` table plus its serial counter. -/
structure UsersDB where
  users : List UserRow
  next_user_id : Nat
  deriving Repr, DecidableEq

/-- POST /users (`add_user`): after the required-fields and duplicate-username
checks, the insert stores role `'reader'` as a literal; the `role` field of
the request body (`roleField`) is never read.  `hash` models `bcrypt.hashpw`.
Returns the new state and the HTTP status. -/
def add_user (u p roleField : Option String) (hash : String → String)
    (s : UsersDB) : UsersDB × Nat :=
  if !(truthy u && truthy p) then (s, 400)
  else
    let un := u.getD ""
    if s.users.any (fun r => r.username == un && r.deleted_at.isNone) then (s, 400)
    else
      ({ users := s.users ++
          [{ user_id := s.next_user_id, username := un
           , password_hash := hash (p.getD ""), role := "reader", deleted_at := none }]
       , next_user_id := s.next_user_id + 1 }, 201)

/-- PUT /users/{id} (`update_user`): after the required-fields and
duplicate-username checks, updates only `username` and `password_hash` of the
live row with that id (`SET username=%s, password_hash=%s`); zero rows rolls
back with 404.  The `role` column is never in the SET list and `roleField` is
never read. -/
def update_user (uid : Nat) (u p roleField : Option String) (hash : String → String)
    (s : UsersDB) : UsersDB × Nat :=
  if !(truthy u && truthy p) then (s, 400)
  else
    let un := u.getD ""
    if s.users.any (fun r => r.username == un && !(r.user_id == uid) && r.deleted_at.isNone) then
      (s, 400)
    else if s.users.any (fun r => r.user_id == uid && r.deleted_at.isNone) then
      ({ s with users := s.users.map (fun r =>
          if r.user_id == uid && r.deleted_at.isNone then
            { r with username := un, password_hash := hash (p.getD "") }
          else r) }, 200)
    else (s, 404)

/-! ### Concrete sample values -/

/-- A request document with every field absent (`{}`). -/
def emptyDoc : FilmDoc :=
  { title := none, release_year := none, runtime := none, synopsis := none
  , av_annotate_link := none
  , productionDetails := ⟨none, none, none, none, none⟩
  , authors := ⟨none, none, none, none, none, none⟩
  , productionTeam := []
  , actors := none
  , equipment := ⟨none, none, none⟩
  , documents := ⟨none, none, none⟩
  , institutionalInfo := ⟨none, none, none, none, none, none⟩
  , screenings := [] }

/-- The empty database. -/
def emptyDB : DB :=
  { films := [], production_details := [], authors := [], production_team := []
  , actors := [], equipment := [], documents := [], institutional_info := []
  , screenings := [], next_film_id := 1 }

/-- A live film row with id 1. -/
def liveFilm : FilmRow :=
  { film_id := 1, title := some "T", release_year := none, runtime := none
  , synopsis := none, av_annotate_link := none, created_at := 0
  , updated_at := none, deleted_at := none }

/-- A database holding one live film (id 1) with one child row in
`film_actors` and one in `film_authors`. -/
def oneFilmDB : DB :=
  { films := [liveFilm]
  , production_details := [prodRow ⟨none, none, none, none, none⟩ 1]
  , authors := [{ film_id := 1, role := "Filmmaker", name := "N", comment := ""
                , deleted_at := none }]
  , production_team := []
  , actors := [actorRow 1 "Old Actor"]
  , equipment := [], documents := []
  , institutional_info := [instRow ⟨none, none, none, none, none, none⟩ 1]
  , screenings := [], next_film_id := 2 }

/-- A database whose only film (id 1) is already soft-deleted, together with
a soft-deleted child row. -/
def deletedFilmDB : DB :=
  { films := [{ liveFilm with deleted_at := some 5 }]
  , production_details := []
  , authors := [{ film_id := 1, role := "Filmmaker", name := "N", comment := ""
                , deleted_at := some 5 }]
  , production_team := [], actors := [], equipment := [], documents := []
  , institutional_info := [], screenings := [], next_film_id := 2 }

/-- An authors section in which only the filmmaker name is set. -/
def filmmakerOnly : AuthorsSection :=
  ⟨none, none, some "F. Maker", none, none, none⟩

/-! ### Helper lemmas -/

/-- Membership in a conditional singleton forces equality with its element. -/
theorem mem_ite_singleton {α : Type} {c : Prop} [Decidable c] {x r : α}
    (h : r ∈ (if c then [x] else ([] : List α))) : r = x := by
  split at h
  · simpa using h
  · simp at h

/-- Every row produced by `authorRows` carries the given film id. -/
theorem authorRows_film_id (a : AuthorsSection) (fid : Nat) :
    ∀ r ∈ authorRows a fid, r.film_id = fid := by
  intro r hr
  simp only [authorRows, List.mem_append] at hr
  rcases hr with (hr | hr) | hr <;> rw [mem_ite_singleton hr]

/-- Every row produced by `teamRows` carries the given film id. -/
theorem teamRows_film_id (ms : List TeamMember) (fid : Nat) :
    ∀ r ∈ teamRows ms fid, r.film_id = fid := by
  intro r hr
  simp only [teamRows, List.mem_map] at hr
  obtain ⟨m, _, rfl⟩ := hr
  rfl

/-- Every row produced by `actorRows` carries the given film id. -/
theorem actorRows_film_id (fid : Nat) (field : Option String) :
    ∀ r ∈ actorRows fid field, r.film_id = fid := by
  intro r hr
  simp only [actorRows, List.mem_map] at hr
  obtain ⟨nm, _, rfl⟩ := hr
  rfl

/-- Every row produced by `equipRows` carries the given film id. -/
theorem equipRows_film_id (e : EquipmentSection) (fid : Nat) :
    ∀ r ∈ equipRows e fid, r.film_id = fid := by
  intro r hr
  unfold equipRows at hr
  rw [mem_ite_singleton hr]

/-- Every row produced by `docRows` carries the given film id. -/
theorem docRows_film_id (d : DocumentsSection) (fid : Nat) :
    ∀ r ∈ docRows d fid, r.film_id = fid := by
  intro r hr
  unfold docRows at hr
  rw [mem_ite_singleton hr]

/-- Every row produced by `screeningRows` carries the given film id. -/
theorem screeningRows_film_id (ss : List ScreeningItem) (fid : Nat) :
    ∀ r ∈ screeningRows ss fid, r.film_id = fid := by
  intro r hr
  simp only [screeningRows, List.mem_map] at hr
  obtain ⟨m, _, rfl⟩ := hr
  rfl

/-- Replacing a child set twice with the same rows is the same as replacing
it once, provided the replacement rows all carry the replaced film id. -/
theorem replaceBy_idem {α : Type} (idOf : α → Nat) (fid : Nat) (rows xs : List α)
    (hr : ∀ r ∈ rows, idOf r = fid) :
    replaceBy idOf fid rows (replaceBy idOf fid rows xs) = replaceBy idOf fid rows xs := by
  unfold replaceBy
  rw [List.filter_append]
  have h1 : rows.filter (fun r => !(idOf r == fid)) = [] := by
    rw [List.filter_eq_nil_iff]
    intro r hrr
    simp [hr r hrr]
  rw [h1, List.append_nil, List.filter_filter]
  simp only [Bool.and_self]

/-- After stamping `deleted_at` on every row with the given film id, every row
of the table with that id has a non-null `deleted_at`. -/
theorem stamped_all {α : Type} (idOf : α → Nat) (delOf : α → Option Nat)
    (st : α → α) (fid : Nat) (xs : List α)
    (hid : ∀ r, idOf (st r) = idOf r) (hdel : ∀ r, (delOf (st r)).isSome = true) :
    (xs.map (fun r => if idOf r == fid then st r else r)).all
      (fun r => !(idOf r == fid) || (delOf r).isSome) = true := by
  induction xs with
  | nil => rfl
  | cons a l ih =>
    simp only [List.map_cons, List.all_cons, ih, Bool.and_true]
    by_cases h : idOf a == fid
    · simp [h, hid, hdel]
    · simp [h]

/-- After the root soft-delete stamp of `delete_film`, no live `films` row
with the given film id remains. -/
theorem find_live_after_stamp (fid t : Nat) (xs : List FilmRow) :
    (xs.map (fun r =>
        if r.film_id == fid && r.deleted_at.isNone then { r with deleted_at := some t }
        else r)).find?
      (fun r => r.film_id == fid && r.deleted_at.isNone) = none := by
  rw [List.find?_eq_none]
  intro x hx
  rw [List.mem_map] at hx
  obtain ⟨r, _, rfl⟩ := hx
  by_cases h1 : r.film_id == fid
  · by_cases h2 : r.deleted_at.isNone
    · simp [h1, h2]
    · simp [h1, h2]
  · simp [h1]

/-- If some statement of the suffix fails, running the suffix aborts. -/
theorem runFrom_isNone (fails : Nat → Bool) (fs : List (DB → DB)) :
    ∀ (k : Nat) (s : DB) (i : Nat), i < fs.length → fails (k + i) = true →
      runFrom fails k fs s = none := by
  induction fs with
  | nil =>
    intro k s i hi _
    simp at hi
  | cons f fs ih =>
    intro k s i hi hf
    unfold runFrom
    by_cases h0 : fails k
    · simp [h0]
    · simp only [h0, if_false]
      cases i with
      | zero =>
        rw [Nat.add_zero] at hf
        exact absurd hf (by simp [h0])
      | succ j =>
        exact ih (k + 1) (f s) j (by simpa using hi)
          (by rw [show k + 1 + j = k + (j + 1) by omega]; exact hf)

/-! ### Claim theorems -/

/-- C5: for a film_id whose root row is already soft-deleted or absent, the
soft-delete's root UPDATE affects zero rows, so DELETE /films/{id} rolls back,
answers 404, and leaves the root row and every child-table row unchanged. -/
theorem delete_missing_or_deleted_noop (fid t : Nat) (s : DB)
    (h : s.films.any (fun r => r.film_id == fid && r.deleted_at.isNone) = false) :
    deleteFilm fid t s = (s, 404) := by
  simp [deleteFilm, h]

/-- Witness for C5 at an already-soft-deleted film. -/
theorem delete_missing_or_deleted_noop_w :
    deletedFilmDB.films.any (fun r => r.film_id == 1 && r.deleted_at.isNone) = false
    ∧ deleteFilm 1 9 deletedFilmDB = (deletedFilmDB, 404) :=
  ⟨by decide, delete_missing_or_deleted_noop 1 9 deletedFilmDB (by decide)⟩

/-- C4: for a live film_id, DELETE /films/{id} succeeds (200), stamps a
non-null deleted_at on every row of all eight child tables carrying that
film_id in the same transaction, and a subsequent GET /films/{id} returns
not-found. -/
theorem delete_cascades_and_hides (fid t : Nat) (s : DB)
    (h : s.films.any (fun r => r.film_id == fid && r.deleted_at.isNone) = true) :
    (deleteFilm fid t s).2 = 200
    ∧ (deleteFilm fid t s).1.production_details.all
        (fun r => !(r.film_id == fid) || r.deleted_at.isSome) = true
    ∧ (deleteFilm fid t s).1.authors.all
        (fun r => !(r.film_id == fid) || r.deleted_at.isSome) = true
    ∧ (deleteFilm fid t s).1.production_team.all
        (fun r => !(r.film_id == fid) || r.deleted_at.isSome) = true
    ∧ (deleteFilm fid t s).1.actors.all
        (fun r => !(r.film_id == fid) || r.deleted_at.isSome) = true
    ∧ (deleteFilm fid t s).1.equipment.all
        (fun r => !(r.film_id == fid) || r.deleted_at.isSome) = true
    ∧ (deleteFilm fid t s).1.documents.all
        (fun r => !(r.film_id == fid) || r.deleted_at.isSome) = true
    ∧ (deleteFilm fid t s).1.institutional_info.all
        (fun r => !(r.film_id == fid) || r.deleted_at.isSome) = true
    ∧ (deleteFilm fid t s).1.screenings.all
        (fun r => !(r.film_id == fid) || r.deleted_at.isSome) = true
    ∧ getFilmDetails fid (deleteFilm fid t s).1 = none := by
  refine ⟨?_, ?_, ?_, ?_, ?_, ?_, ?_, ?_, ?_, ?_⟩
  · simp [deleteFilm, h]
  · simp only [deleteFilm, h, if_true]
    exact stamped_all (fun r : ProdRow => r.film_id) (fun r => r.deleted_at)
      (fun r => { r with deleted_at := some t }) fid s.production_details
      (fun _ => rfl) (fun _ => rfl)
  · simp only [deleteFilm, h, if_true]
    exact stamped_all (fun r : AuthorRow => r.film_id) (fun r => r.deleted_at)
      (fun r => { r with deleted_at := some t }) fid s.authors
      (fun _ => rfl) (fun _ => rfl)
  · simp only [deleteFilm, h, if_true]
    exact stamped_all (fun r : TeamRow => r.film_id) (fun r => r.deleted_at)
      (fun r => { r with deleted_at := some t }) fid s.production_team
      (fun _ => rfl) (fun _ => rfl)
  · simp only [deleteFilm, h, if_true]
    exact stamped_all (fun r : ActorRow => r.film_id) (fun r => r.deleted_at)
      (fun r => { r with deleted_at := some t }) fid s.actors
      (fun _ => rfl) (fun _ => rfl)
  · simp only [deleteFilm, h, if_true]
    exact stamped_all (fun r : EquipRow => r.film_id) (fun r => r.deleted_at)
      (fun r => { r with deleted_at := some t }) fid s.equipment
      (fun _ => rfl) (fun _ => rfl)
  · simp only [deleteFilm, h, if_true]
    exact stamped_all (fun r : DocRow => r.film_id) (fun r => r.deleted_at)
      (fun r => { r with deleted_at := some t }) fid s.documents
      (fun _ => rfl) (fun _ => rfl)
  · simp only [deleteFilm, h, if_true]
    exact stamped_all (fun r : InstRow => r.film_id) (fun r => r.deleted_at)
      (fun r => { r with deleted_at := some t }) fid s.institutional_info
      (fun _ => rfl) (fun _ => rfl)
  · simp only [deleteFilm, h, if_true]
    exact stamped_all (fun r : ScreeningRow => r.film_id) (fun r => r.deleted_at)
      (fun r => { r with deleted_at := some t }) fid s.screenings
      (fun _ => rfl) (fun _ => rfl)
  · simp only [deleteFilm, h, if_true, getFilmDetails, find_live_after_stamp]

/-- Witness for C4 at a live film with child rows. -/
theorem delete_cascades_and_hides_w :
    oneFilmDB.films.any (fun r => r.film_id == 1 && r.deleted_at.isNone) = true
    ∧ (deleteFilm 1 9 oneFilmDB).2 = 200
    ∧ getFilmDetails 1 (deleteFilm 1 9 oneFilmDB).1 = none := by
  refine ⟨by decide, ?_, ?_⟩
  · exact (delete_cascades_and_hides 1 9 oneFilmDB (by decide)).1
  · exact (delete_cascades_and_hides 1 9 oneFilmDB (by decide)).2.2.2.2.2.2.2.2.2

/-- C2 counterexample: the root UPDATE of PUT /films/{id} has no
`deleted_at IS NULL` condition, so a soft-deleted film still matches: the
call answers 200 (not 404), mutates the state, and replaces child rows of
that film_id — refuting "zero rows match when the film is already
soft-deleted". -/
theorem update_matches_soft_deleted_cex :
    deletedFilmDB.films.all (fun r => r.deleted_at.isSome) = true
    ∧ (updateFilm 1 emptyDoc 9 deletedFilmDB).2 = 200
    ∧ (updateFilm 1 emptyDoc 9 deletedFilmDB).1 ≠ deletedFilmDB
    ∧ (updateFilm 1 emptyDoc 9 deletedFilmDB).1.authors = [] := by decide

/-- C2 amended: zero rows match exactly when no films row with that film_id
exists at all (a soft-deleted row still matches and is updated); in the
zero-match case the transaction rolls back, 404 is returned, and neither the
root row nor any child-table row is mutated. -/
theorem update_zero_match_rolls_back (fid : Nat) (doc : FilmDoc) (t : Nat) (s : DB)
    (h : s.films.all (fun r => !(r.film_id == fid)) = true) :
    updateFilm fid doc t s = (s, 404) := by
  have hno : s.films.any (fun r => r.film_id == fid) = false := by
    rw [List.any_eq_false]
    intro r hr
    simpa using List.all_eq_true.mp h r hr
  simp [updateFilm, hno]

/-- Witness for the amended C2 at an absent film_id. -/
theorem update_zero_match_rolls_back_w :
    oneFilmDB.films.all (fun r => !(r.film_id == 2)) = true
    ∧ updateFilm 2 emptyDoc 9 oneFilmDB = (oneFilmDB, 404) :=
  ⟨by decide, update_zero_match_rolls_back 2 emptyDoc 9 oneFilmDB (by decide)⟩

/-- C6 counterexample: Create inserts the film_production_details row
unconditionally — an input whose productionDetails section is entirely empty
still produces exactly one such row (with null attribute columns), refuting
"an empty or absent productionDetails section produces no row". -/
theorem create_prod_details_empty_section_cex :
    emptyDoc.productionDetails = ⟨none, none, none, none, none⟩
    ∧ ((createApply emptyDoc 0 emptyDB).production_details.filter
        (fun r => r.film_id == 1)).length = 1
    ∧ (createApply emptyDoc 0 emptyDB).production_details
        = [{ film_id := 1, production_timeframe := none, shooting_city := none
           , shooting_country := none, post_production_studio := none
           , production_comments := none, deleted_at := none }] := by decide

/-- C6 amended: in Create the ProductionDetails child row is inserted
unconditionally — exactly one film_production_details row per call, its
attribute columns null when the section is empty or absent. -/
theorem create_prod_details_unconditional (doc : FilmDoc) (t : Nat) (s : DB) :
    (createApply doc t s).production_details
      = s.production_details ++ [prodRow doc.productionDetails s.next_film_id] := rfl

/-- A request document whose only content is the sample actors string. -/
def actorsDoc : FilmDoc :=
  { emptyDoc with actors := some "Alice, Bob ,, Carol" }

/-- C7: Create appends, and Update (when the root row matches) replaces, the
film_actors rows with exactly the rows obtained by splitting the comma-
delimited actors field, trimming each token and dropping empty tokens, each
surviving name giving one row with null character_name and comment; and the
input "Alice, Bob ,, Carol" parses to exactly Alice, Bob, Carol. -/
theorem actors_split_trim_drop (doc : FilmDoc) (t : Nat) (s : DB)
    (fid : Nat) (s2 : DB) (h : s2.films.any (fun r => r.film_id == fid) = true) :
    (createApply doc t s).actors
      = s.actors ++ (parseActors (doc.actors.getD "")).map (actorRow s.next_film_id)
    ∧ (updateFilm fid doc t s2).1.actors
      = s2.actors.filter (fun r => !(r.film_id == fid))
        ++ (parseActors (doc.actors.getD "")).map (actorRow fid)
    ∧ parseActors "Alice, Bob ,, Carol" = ["Alice", "Bob", "Carol"] := by
  refine ⟨rfl, ?_, by decide⟩
  simp [updateFilm, h, replaceBy, actorRows]

/-- Witness for C7 updating the live film of `oneFilmDB`. -/
theorem actors_split_trim_drop_w :
    oneFilmDB.films.any (fun r => r.film_id == 1) = true
    ∧ (updateFilm 1 actorsDoc 9 oneFilmDB).1.actors
        = oneFilmDB.actors.filter (fun r => !(r.film_id == 1))
          ++ (parseActors (actorsDoc.actors.getD "")).map (actorRow 1) :=
  ⟨by decide, (actors_split_trim_drop actorsDoc 9 emptyDB 1 oneFilmDB (by decide)).2.1⟩

/-- C8: Create appends, and Update (when the root row matches) replaces, the
film_authors rows with `authorRows`: one row per role key of the fixed enum
{screenwriter, filmmaker, executive_producer} whose name is present and
non-empty, mapped to Screenwriter / Filmmaker / Executive Producer; a
payload with only filmmaker set yields exactly one row with role Filmmaker. -/
theorem authors_role_rows (doc : FilmDoc) (t : Nat) (s : DB)
    (fid : Nat) (s2 : DB) (h : s2.films.any (fun r => r.film_id == fid) = true) :
    (createApply doc t s).authors = s.authors ++ authorRows doc.authors s.next_film_id
    ∧ (updateFilm fid doc t s2).1.authors
        = s2.authors.filter (fun r => !(r.film_id == fid)) ++ authorRows doc.authors fid
    ∧ authorRows filmmakerOnly 7
        = [{ film_id := 7, role := "Filmmaker", name := "F. Maker", comment := ""
           , deleted_at := none }] := by
  refine ⟨rfl, ?_, by decide⟩
  simp [updateFilm, h, replaceBy]

/-- Witness for C8 updating the live film of `oneFilmDB`. -/
theorem authors_role_rows_w :
    oneFilmDB.films.any (fun r => r.film_id == 1) = true
    ∧ (updateFilm 1 emptyDoc 9 oneFilmDB).1.authors
        = oneFilmDB.authors.filter (fun r => !(r.film_id == 1))
          ++ authorRows emptyDoc.authors 1 :=
  ⟨by decide, (authors_role_rows emptyDoc 9 emptyDB 1 oneFilmDB (by decide)).2.1⟩

/-- C9: Create always inserts exactly one film_institutional_info row (all
attribute columns null when the section is empty or absent), and Update
(when the root row matches) always deletes and re-inserts exactly one such
row, so these operations never leave zero InstitutionalInfo rows for the
touched film. -/
theorem institutional_info_always_one (doc : FilmDoc) (t : Nat) (s : DB)
    (fid : Nat) (s2 : DB) (h : s2.films.any (fun r => r.film_id == fid) = true) :
    (createApply doc t s).institutional_info
      = s.institutional_info ++ [instRow doc.institutionalInfo s.next_film_id]
    ∧ (updateFilm fid doc t s2).1.institutional_info
      = s2.institutional_info.filter (fun r => !(r.film_id == fid))
        ++ [instRow doc.institutionalInfo fid] := by
  refine ⟨rfl, ?_⟩
  simp [updateFilm, h, replaceBy]

/-- Witness for C9 updating the live film of `oneFilmDB`. -/
theorem institutional_info_always_one_w :
    oneFilmDB.films.any (fun r => r.film_id == 1) = true
    ∧ (updateFilm 1 emptyDoc 9 oneFilmDB).1.institutional_info
        = oneFilmDB.institutional_info.filter (fun r => !(r.film_id == 1))
          ++ [instRow emptyDoc.institutionalInfo 1] :=
  ⟨by decide, (institutional_info_always_one emptyDoc 9 emptyDB 1 oneFilmDB (by decide)).2⟩

/-- C10: POST /users stores every created user with role 'reader' no matter
what role value the request body carries, and PUT /users/{id} never changes
the role column — the stored roles are unchanged by it — so neither request
can create or promote a user to role admin. -/
theorem user_role_fixed_reader (u p rl : Option String) (hash : String → String)
    (s : UsersDB) (uid : Nat) :
    ((add_user u p rl hash s).1.users = s.users
      ∨ (add_user u p rl hash s).1.users
          = s.users ++ [{ user_id := s.next_user_id, username := u.getD ""
                        , password_hash := hash (p.getD ""), role := "reader"
                        , deleted_at := none }])
    ∧ (update_user uid u p rl hash s).1.users.map (fun r => r.role)
        = s.users.map (fun r => r.role) := by
  constructor
  · simp only [add_user]
    split
    · exact Or.inl rfl
    · split
      · exact Or.inl rfl
      · exact Or.inr rfl
  · simp only [update_user]
    split
    · rfl
    · split
      · rfl
      · split
        · rw [List.map_map]
          refine List.map_congr_left ?_
          intro r _
          by_cases hc : (r.user_id == uid && r.deleted_at.isNone) = true
          · simp [Function.comp, hc]
          · simp [Function.comp, hc]
        · rfl

/-- C1: if, inside the Create transaction, any statement after the root
films insert fails (the root insert itself having succeeded), the whole
transaction is rolled back — the resulting state is exactly the state before
the call, no films row and no child-table row from this call persists — and
the handler answers 500. -/
theorem create_tx_rollback_on_child_failure (fails : Nat → Bool) (doc : FilmDoc)
    (t : Nat) (s : DB) (i : Nat)
    (h0 : fails 0 = false)
    (hi : i < (createChildStmts doc s.next_film_id).length)
    (hf : fails (i + 1) = true) :
    createTx fails doc t s = (s, 500) := by
  unfold createTx
  have habort : runFrom fails 0
      (insertRoot doc t :: createChildStmts doc s.next_film_id) s = none := by
    unfold runFrom
    rw [if_neg (by simp [h0])]
    exact runFrom_isNone fails _ 1 _ i hi (by rw [Nat.add_comm 1 i]; exact hf)
  rw [habort]

/-- Witness for C1: the first child insert (statement 1) fails on an empty
database. -/
theorem create_tx_rollback_on_child_failure_w :
    (fun n => n == 1) 0 = false
    ∧ createTx (fun n => n == 1) emptyDoc 0 emptyDB = (emptyDB, 500) :=
  ⟨by decide, create_tx_rollback_on_child_failure (fun n => n == 1) emptyDoc 0 emptyDB 0
    (by decide) (by decide) (by decide)⟩

/-- C3: for a live film_id and a fixed input document, running Update twice
in succession leaves the stored film aggregate — root row and all eight
child record sets — identical to the state after a single Update with that
document (performed at the time of the later call): the replace semantics
make Update idempotent. -/
theorem update_idempotent (fid : Nat) (doc : FilmDoc) (t1 t2 : Nat) (s : DB)
    (h : s.films.any (fun r => r.film_id == fid && r.deleted_at.isNone) = true) :
    (updateFilm fid doc t2 (updateFilm fid doc t1 s).1).1 = (updateFilm fid doc t2 s).1 := by
  have hex : s.films.any (fun r => r.film_id == fid) = true := by
    rw [List.any_eq_true] at h ⊢
    obtain ⟨r, hr, hp⟩ := h
    rw [Bool.and_eq_true] at hp
    exact ⟨r, hr, hp.1⟩
  have hex1 : (s.films.map (fun r => if r.film_id == fid then setRoot doc t1 r else r)).any
      (fun r => r.film_id == fid) = true := by
    rw [List.any_eq_true]
    rw [List.any_eq_true] at hex
    obtain ⟨r, hr, hp⟩ := hex
    refine ⟨if r.film_id == fid then setRoot doc t1 r else r,
      List.mem_map.mpr ⟨r, hr, rfl⟩, ?_⟩
    simp [hp, setRoot]
  simp only [updateFilm, hex, hex1, if_true]
  simp only [DB.mk.injEq]
  refine ⟨?_, ?_, ?_, ?_, ?_, ?_, ?_, ?_, ?_, trivial⟩
  · rw [List.map_map]
    refine List.map_congr_left ?_
    intro r _
    by_cases hc : (r.film_id == fid) = true
    · simp [Function.comp, hc, setRoot]
    · simp [Function.comp, hc]
  · exact replaceBy_idem (fun r : ProdRow => r.film_id) fid _ s.production_details
      (by intro r hr; rw [List.mem_singleton] at hr; subst hr; rfl)
  · exact replaceBy_idem (fun r : AuthorRow => r.film_id) fid _ s.authors
      (authorRows_film_id doc.authors fid)
  · exact replaceBy_idem (fun r : TeamRow => r.film_id) fid _ s.production_team
      (teamRows_film_id doc.productionTeam fid)
  · exact replaceBy_idem (fun r : ActorRow => r.film_id) fid _ s.actors
      (actorRows_film_id fid doc.actors)
  · exact replaceBy_idem (fun r : EquipRow => r.film_id) fid _ s.equipment
      (equipRows_film_id doc.equipment fid)
  · exact replaceBy_idem (fun r : DocRow => r.film_id) fid _ s.documents
      (docRows_film_id doc.documents fid)
  · exact replaceBy_idem (fun r : InstRow => r.film_id) fid _ s.institutional_info
      (by intro r hr; rw [List.mem_singleton] at hr; subst hr; rfl)
  · exact replaceBy_idem (fun r : ScreeningRow => r.film_id) fid _ s.screenings
      (screeningRows_film_id doc.screenings fid)

/-- Witness for C3: double update of the live film of `oneFilmDB`. -/
theorem update_idempotent_w :
    oneFilmDB.films.any (fun r => r.film_id == 1 && r.deleted_at.isNone) = true
    ∧ (updateFilm 1 actorsDoc 8 (updateFilm 1 actorsDoc 7 oneFilmDB).1).1
        = (updateFilm 1 actorsDoc 8 oneFilmDB).1 :=
  ⟨by decide, update_idempotent 1 actorsDoc 7 8 oneFilmDB (by decide)⟩

end FilmDB
